import Mathlib

/-!
Shallow embedding of the flight-table client (a Next.js dashboard fed by a
Socket.IO stream) and proofs about its synchronization, presentation and
transport layers.

Sources embedded here:
* the `AirportBoard` component: the `flightData` handler (full-snapshot
  replacement with defensive payload-shape probing), the `stateChange`
  handler (optimistic in-place patch of `state` / `lastUpdated`), the
  render-time sort `sortFlightsByState`, and the `FlightRow` countdown
  (`updateTime` / `formatTime`);
* `WebSocketService` from `src/lib/websocket.ts`: connection flags,
  reconnection counter with linear backoff, `connect` / event handlers;
* the page gate in `src/app/page.tsx` and the edge `middleware`.

JavaScript truthiness on optional numeric fields (`if (flight.estimatedEntryTime)`)
is modelled explicitly: a present value of `0` counts as falsy. Machine reals
are modelled as exact rationals (`ℚ`); timestamps are integer milliseconds.
-/

/-- The three-state classification `"Incoming" | "Visible" | "Passed"` from the
`FlightStatus` interface in `src/lib/websocket.ts`. -/
inductive FlightState : Type
  | Incoming
  | Visible
  | Passed
deriving DecidableEq

/-- The `FlightStatus` interface from `src/lib/websocket.ts`. Optional fields
become `Option`; `estimatedExitTime?: number | null` is `Option (Option Int)`
(outer `none` = absent, `some none` = explicit `null`). Numeric telemetry is
`ℚ`, timestamps are integer milliseconds. -/
structure FlightStatus : Type where
  icao24 : String
  state : FlightState
  callSign : String
  origin : String
  destination : String
  aircraft : String
  distance : Option ℚ := none
  estimatedTimeToIntersection : Option ℚ := none
  heading : Option ℚ := none
  speed : Option ℚ := none
  lastUpdated : Option Int := none
  isPrediction : Option Bool := none
  dataHash : Option String := none
  aircraftType : Option String := none
  operator : Option String := none
  registration : Option String := none
  estimatedEntryTime : Option Int := none
  estimatedExitTime : Option (Option Int) := none
deriving DecidableEq

/-- The `data` field of a `StateChangeEvent` from `src/lib/websocket.ts`.
The source declares `newState: string` and the handler casts it to
`FlightStatus["state"]` unchecked; the cast's target type is used here. -/
structure StateChangeData : Type where
  aircraftId : String
  previousState : Option String
  newState : FlightState
  callSign : String
  timestamp : Int
deriving DecidableEq

/-- The `setFlights` updater inside the `onStateChange` handler of
`AirportBoard`: map over the previous list and, for each record whose
`icao24` equals the event's `aircraftId`, replace only `state` and
`lastUpdated`, spreading all other fields unchanged. -/
def applyStateChange (ev : StateChangeData) (flights : List FlightStatus) :
    List FlightStatus :=
  flights.map (fun flight =>
    if flight.icao24 = ev.aircraftId then
      { flight with state := ev.newState, lastUpdated := some ev.timestamp }
    else
      flight)

/-- Console messages emitted by the `AirportBoard` handlers, abstracted from
the `console.log` / `console.error` calls in the source. -/
inductive LogEntry : Type
  | receivedStateChange (ev : StateChangeData)
  | stateChangeInfo (callSign : String) (previousState : Option String)
      (newState : FlightState)
  | updatingAircraft (callSign : String) (oldState : FlightState)
      (newState : FlightState)
  | noValidFlightData
  | invalidFlightDataStructure
deriving DecidableEq

/-- The log output of the `onStateChange` handler: it always logs the received
event and the transition line, and logs one `Updating aircraft` line per
record whose `icao24` matches the event's `aircraftId`. -/
def onStateChangeLogs (ev : StateChangeData) (flights : List FlightStatus) :
    List LogEntry :=
  LogEntry.receivedStateChange ev ::
    LogEntry.stateChangeInfo ev.callSign ev.previousState ev.newState ::
      flights.filterMap (fun flight =>
        if flight.icao24 = ev.aircraftId then
          some (LogEntry.updatingAircraft ev.callSign flight.state ev.newState)
        else
          none)

/-- A probed JavaScript value: either an array of flight records or some other
truthy value. Used for `data?.flightData?.data`, whose truthiness and
array-ness are checked separately in the source. -/
inductive ProbeField : Type
  | arrVal (xs : List FlightStatus)
  | nonArr
deriving DecidableEq

/-- Observation of an incoming `flightData` payload, as probed by the
`onFlightData` handler of `AirportBoard`:
* `nestedData`: `data?.flightData?.data` (`none` when absent or falsy);
* `selfArray`: `some xs` when the payload itself is an array;
* `dataField`: `some xs` when the payload has a truthy array `data` property
  (the source checks truthiness and `Array.isArray` together);
* `flightsField`: likewise for a `flights` property. -/
structure FlightDataPayload : Type where
  nestedData : Option ProbeField := none
  selfArray : Option (List FlightStatus) := none
  dataField : Option (List FlightStatus) := none
  flightsField : Option (List FlightStatus) := none
deriving DecidableEq

/-- The shape probing of the `onFlightData` handler: take `data?.flightData?.data`
if truthy; otherwise try, in order, the payload itself as an array, a `data`
array property, a `flights` array property. A truthy non-array nested value
reaches the final `Array.isArray` check and is rejected there (the
alternatives are not probed in that case, exactly as in the source). -/
def extractFlightData (p : FlightDataPayload) : Option (List FlightStatus) :=
  match p.nestedData with
  | some (ProbeField.arrVal xs) => some xs
  | some ProbeField.nonArr => none
  | none =>
    match p.selfArray with
    | some xs => some xs
    | none =>
      match p.dataField with
      | some xs => some xs
      | none =>
        match p.flightsField with
        | some xs => some xs
        | none => none

/-- The `console.error` emitted when the `onFlightData` handler discards a
payload: `No valid flight data found` when no alternative shape matched,
`Invalid flight data structure` when the probed value failed the final
`Array.isArray` check. `none` when the update is accepted. -/
def onFlightDataErrorLog (p : FlightDataPayload) : Option LogEntry :=
  match p.nestedData with
  | some (ProbeField.arrVal _) => none
  | some ProbeField.nonArr => some LogEntry.invalidFlightDataStructure
  | none =>
    match p.selfArray with
    | some _ => none
    | none =>
      match p.dataField with
      | some _ => none
      | none =>
        match p.flightsField with
        | some _ => none
        | none => some LogEntry.noValidFlightData

/-- The effect of the `onFlightData` handler on the flight list: on a
recognized payload, `setFlights(flightData)` replaces the list wholesale; on
a discarded payload the handler returns early and the previous list is
retained. -/
def onFlightDataUpdate (p : FlightDataPayload) (prev : List FlightStatus) :
    List FlightStatus :=
  match extractFlightData p with
  | some xs => xs
  | none => prev

/-- `applyFullSync` (the spec's name for the snapshot path of `onFlightData`):
a well-formed `FlightDataUpdate` payload carrying `records` under
`flightData.data`, applied to the previous list. -/
def applyFullSync (records : List FlightStatus) (prev : List FlightStatus) :
    List FlightStatus :=
  onFlightDataUpdate { nestedData := some (ProbeField.arrVal records) } prev

/-- An update arriving at the synchronization layer: a periodic full snapshot
or an incremental state-change event. -/
inductive SyncEvent : Type
  | fullSync (records : List FlightStatus)
  | stateChange (ev : StateChangeData)
deriving DecidableEq

/-- Dispatch one synchronization-layer event against the in-memory list. -/
def applySyncEvent (flights : List FlightStatus) (e : SyncEvent) :
    List FlightStatus :=
  match e with
  | SyncEvent.fullSync records => applyFullSync records flights
  | SyncEvent.stateChange ev => applyStateChange ev flights

/-- Mutable fields of `WebSocketService` from `src/lib/websocket.ts`.
`socketSet` records whether `this.socket` is non-null (the constructor's
`setupSocket` always assigns it). -/
structure WSState : Type where
  socketSet : Bool
  isConnected : Bool
  isAuthenticated : Bool
  reconnectAttempts : Nat
  authToken : Option String
deriving DecidableEq

/-- The service state right after the constructor runs. -/
def initialWSState : WSState where
  socketSet := true
  isConnected := false
  isAuthenticated := false
  reconnectAttempts := 0
  authToken := none

/-- `private maxReconnectAttempts = 5` in `WebSocketService`. -/
def maxReconnectAttempts : Nat := 5

/-- `private reconnectDelay = 1000` in `WebSocketService` (milliseconds). -/
def reconnectDelayMs : Nat := 1000

/-- `attemptReconnect`: while under the attempt cap, increment the counter and
schedule a `socket.connect()` after `reconnectDelay * reconnectAttempts`
milliseconds (the delay returned as `some d`); at the cap, log
`Max reconnection attempts reached` and schedule nothing (`none`). -/
def attemptReconnect (s : WSState) : WSState × Option Nat :=
  if s.reconnectAttempts < maxReconnectAttempts then
    (⟨s.socketSet, s.isConnected, s.isAuthenticated, s.reconnectAttempts + 1,
        s.authToken⟩,
      some (reconnectDelayMs * (s.reconnectAttempts + 1)))
  else
    (s, none)

/-- The `connect` socket-event handler: set `isConnected`, reset
`reconnectAttempts` to 0 (and, not modelled beyond state, emit `authenticate`
when a token is stored). -/
def onConnectEvent (s : WSState) : WSState :=
  { s with isConnected := true, reconnectAttempts := 0 }

/-- The `disconnect` socket-event handler: clear both flags, then run
`attemptReconnect`. -/
def onDisconnectEvent (s : WSState) : WSState × Option Nat :=
  attemptReconnect { s with isConnected := false, isAuthenticated := false }

/-- The `connect_error` socket-event handler: log the error and clear both
flags. It does not call `attemptReconnect`. -/
def onConnectErrorEvent (s : WSState) : WSState :=
  { s with isConnected := false, isAuthenticated := false }

/-- The `authenticated` socket-event handler: set `isAuthenticated` from
`response.success`. -/
def onAuthenticatedEvent (s : WSState) (success : Bool) : WSState :=
  { s with isAuthenticated := success }

/-- Transport lifecycle signals delivered to the service's handlers. -/
inductive WSEvent : Type
  | connectEv
  | disconnectEv
  | connectErrorEv
  | authenticatedEv (success : Bool)
deriving DecidableEq

/-- Dispatch one socket event; the second component is the backoff delay of a
reconnection attempt scheduled by this event, if any. -/
def stepWS (s : WSState) (e : WSEvent) : WSState × Option Nat :=
  match e with
  | WSEvent.connectEv => (onConnectEvent s, none)
  | WSEvent.disconnectEv => onDisconnectEvent s
  | WSEvent.connectErrorEv => (onConnectErrorEvent s, none)
  | WSEvent.authenticatedEv b => (onAuthenticatedEvent s b, none)

/-- Run a sequence of socket events, collecting the scheduled reconnection
delays in order. -/
def runWS (s : WSState) : List WSEvent → WSState × List Nat
  | [] => (s, [])
  | e :: es =>
    let r := stepWS s e
    let rest := runWS r.1 es
    (rest.1, r.2.toList ++ rest.2)

/-- The public `connect(token)` method: store the token unconditionally, then
call `socket.connect()` only when the socket exists and `isConnected` is
false. The Boolean result records whether `socket.connect()` was called. -/
def connectMethod (s : WSState) (token : String) : WSState × Bool :=
  let s1 : WSState := { s with authToken := some token }
  if s1.socketSet && !s1.isConnected then (s1, true) else (s1, false)

/-- JavaScript truthiness filter for an optional integer field: a present `0`
is falsy. -/
def truthyInt : Option Int → Option Int
  | some t => if t = 0 then none else some t
  | none => none

/-- JavaScript truthiness filter for an optional rational field. -/
def truthyRat : Option ℚ → Option ℚ
  | some q => if q = 0 then none else some q
  | none => none

/-- JavaScript truthiness filter for `estimatedExitTime : number | null |
undefined`: `null`, `undefined` and `0` are all falsy. -/
def truthyExit : Option (Option Int) → Option Int
  | some (some t) => if t = 0 then none else some t
  | some none => none
  | none => none

/-- The `updateTime` closure of `FlightRow`, evaluated with `Date.now() = now`
(integer milliseconds). First component: `entryTimeLeft`, which for an
`Incoming` record is `max(0, (estimatedEntryTime - now) / 1000)` when
`estimatedEntryTime` is truthy, else `max(0, estimatedTimeToIntersection)`
when that is truthy, else `0`. Second component: `exitTimeLeft`, which is
`max(0, (estimatedExitTime - now) / 1000)` for a `Visible` record with truthy
`estimatedExitTime`, else `null`. -/
def updateTime (flight : FlightStatus) (now : Int) : ℚ × Option ℚ :=
  let entryTimeLeft : ℚ :=
    if flight.state = FlightState.Incoming then
      match truthyInt flight.estimatedEntryTime with
      | some t => max 0 ((((t : ℚ)) - ((now : ℚ))) / 1000)
      | none =>
        match truthyRat flight.estimatedTimeToIntersection with
        | some etti => max 0 etti
        | none => 0
    else 0
  let exitTimeLeft : Option ℚ :=
    if flight.state = FlightState.Visible then
      match truthyExit flight.estimatedExitTime with
      | some t => some (max 0 ((((t : ℚ)) - ((now : ℚ))) / 1000))
      | none => none
    else none
  (entryTimeLeft, exitTimeLeft)

/-- The JavaScript `%` operator restricted to the use in `formatTime`:
`a - b * trunc(a / b)`. All callers pass a nonnegative dividend and the
divisor 60, where truncation and floor agree, so floor is used. -/
def jsMod (a b : ℚ) : ℚ := a - b * ((⌊a / b⌋ : ℤ) : ℚ)

/-- `String.padStart(2, "0")` as used on the seconds component. -/
def padStart2 (s : String) : String :=
  if s.length = 0 then "00" else if s.length = 1 then "0" ++ s else s

/-- `formatTime` of `FlightRow`: `` `${floor(s / 60)}:${floor(s % 60)}` ``
with the seconds component padded to two digits. -/
def formatTime (seconds : ℚ) : String :=
  toString (⌊seconds / 60⌋ : ℤ) ++ ":" ++
    padStart2 (toString (⌊jsMod seconds 60⌋ : ℤ))

/-- The `stateOrder` ranking inside `sortFlightsByState`. -/
def stateOrder : FlightState → Nat
  | FlightState.Visible => 0
  | FlightState.Incoming => 1
  | FlightState.Passed => 2

/-- The comparator of `sortFlightsByState` as a Boolean `le`: the JavaScript
comparator returns `stateOrder[a.state] - stateOrder[b.state]`, and a stable
sort under that comparator keeps `a` before `b` exactly when the difference
is nonpositive. -/
def flightLE (a b : FlightStatus) : Bool :=
  stateOrder a.state ≤ stateOrder b.state

/-- `sortFlightsByState`: copy the list and sort it with the state-rank
comparator. `Array.prototype.sort` is required stable since ES2019; the
stable `List.mergeSort` realizes it. -/
def sortFlightsByState (flights : List FlightStatus) : List FlightStatus :=
  flights.mergeSort flightLE

/-- The client-side gate in `src/app/page.tsx`: redirect to Google when
`searchParams.get("token")` is falsy (absent or the empty string); otherwise
store the token and render the board. `true` means the redirect fires. -/
def pageRedirects (urlToken : Option String) : Bool :=
  match urlToken with
  | none => true
  | some t => t = ""

/-- Strict equality `token === expectedToken` between a `string | null` and a
`string | undefined`: true only when both are strings and equal (in
JavaScript, `null === undefined` is false). -/
def jsStrictEqStr : Option String → Option String → Bool
  | some a, some b => a = b
  | _, _ => false

/-- JavaScript falsiness of `token : string | null`. -/
def tokenFalsy : Option String → Bool
  | none => true
  | some t => t = ""

/-- The edge middleware from `src/middleware.ts`: on the path `/`, redirect
to Google when the `token` query parameter is falsy or differs (strict
equality) from `process.env.WEBSOCKET_TOKEN`; otherwise pass through. `true`
means the redirect fires. -/
def middlewareRedirects (pathname : String) (token expectedToken : Option String) :
    Bool :=
  if pathname = "/" then
    tokenFalsy token || !(jsStrictEqStr token expectedToken)
  else
    false

/-- Sample `Incoming` record used by concrete witnesses. -/
def sampleFlightA : FlightStatus :=
  { icao24 := "abc123", state := FlightState.Incoming, callSign := "DLH123",
    origin := "FRA", destination := "JFK", aircraft := "abc123",
    estimatedEntryTime := some 30000 }

/-- Sample `Visible` record used by concrete witnesses. -/
def sampleFlightB : FlightStatus :=
  { icao24 := "def456", state := FlightState.Visible, callSign := "BAW456",
    origin := "LHR", destination := "SFO", aircraft := "def456",
    estimatedExitTime := some (some 45000) }

/-- Sample state-change event targeting `sampleFlightA`. -/
def sampleEvent : StateChangeData :=
  { aircraftId := "abc123", previousState := some "Incoming",
    newState := FlightState.Visible, callSign := "DLH123", timestamp := 123456 }

/-- Sample state-change event whose `aircraftId` matches no sample record. -/
def sampleUnknownEvent : StateChangeData :=
  { aircraftId := "zzz999", previousState := none,
    newState := FlightState.Passed, callSign := "UNK999", timestamp := 777 }

/-- C1: for every sequence of synchronization-layer events ending in a full
snapshot, applied to any starting list, the resulting in-memory flight list is
exactly the records of that most recent snapshot — nothing from earlier
snapshots or earlier state-change patches survives, and the snapshot is never
merged field-by-field with prior state. -/
theorem fullSync_replaces_wholesale (init : List FlightStatus)
    (pre : List SyncEvent) (records : List FlightStatus) :
    (pre ++ [SyncEvent.fullSync records]).foldl applySyncEvent init = records := by
  rw [List.foldl_append]
  rfl

/-- C2: applying a state-change event preserves the list's length and, record
by record, changes only `state` and `lastUpdated` of records whose `icao24`
matches the event's `aircraftId` (every other field of a matched record is
unchanged), and leaves every non-matching record entirely unchanged. -/
theorem stateChange_frame (ev : StateChangeData) (flights : List FlightStatus) :
    (applyStateChange ev flights).length = flights.length ∧
    List.Forall₂ (fun f f' =>
      (f.icao24 = ev.aircraftId →
        f'.state = ev.newState ∧ f'.lastUpdated = some ev.timestamp ∧
        f'.icao24 = f.icao24 ∧ f'.callSign = f.callSign ∧
        f'.origin = f.origin ∧ f'.destination = f.destination ∧
        f'.aircraft = f.aircraft ∧ f'.distance = f.distance ∧
        f'.estimatedTimeToIntersection = f.estimatedTimeToIntersection ∧
        f'.heading = f.heading ∧ f'.speed = f.speed ∧
        f'.isPrediction = f.isPrediction ∧ f'.dataHash = f.dataHash ∧
        f'.aircraftType = f.aircraftType ∧ f'.operator = f.operator ∧
        f'.registration = f.registration ∧
        f'.estimatedEntryTime = f.estimatedEntryTime ∧
        f'.estimatedExitTime = f.estimatedExitTime) ∧
      (f.icao24 ≠ ev.aircraftId → f' = f))
      flights (applyStateChange ev flights) := by
  constructor
  · simp [applyStateChange]
  · induction flights with
    | nil => simp [applyStateChange]
    | cons hd tl ih =>
      simp only [applyStateChange, List.map_cons]
      constructor
      · by_cases h : hd.icao24 = ev.aircraftId <;> simp [h]
      · exact ih

/-- Concrete instantiation of `stateChange_frame` on sample data. -/
theorem stateChange_frame_witness :
    (applyStateChange sampleEvent [sampleFlightA, sampleFlightB]).length = 2 :=
  (stateChange_frame sampleEvent [sampleFlightA, sampleFlightB]).1

/-- C3: a state-change event whose `aircraftId` matches no record leaves the
flight list unchanged (the event is dropped without creating any partial
record), and the event is still logged by the handler. -/
theorem stateChange_unknown_id_dropped (ev : StateChangeData)
    (flights : List FlightStatus)
    (h : ∀ f ∈ flights, f.icao24 ≠ ev.aircraftId) :
    applyStateChange ev flights = flights ∧
    LogEntry.receivedStateChange ev ∈ onStateChangeLogs ev flights := by
  constructor
  · induction flights with
    | nil => rfl
    | cons hd tl ih =>
      simp only [applyStateChange, List.map_cons] at *
      rw [if_neg (h hd (List.mem_cons_self hd tl)),
        ih fun f hf => h f (List.mem_cons_of_mem hd hf)]
  · simp [onStateChangeLogs]

/-- Concrete instantiation of `stateChange_unknown_id_dropped`: the sample
event with an unknown id leaves the sample list unchanged. -/
theorem stateChange_unknown_id_dropped_witness :
    applyStateChange sampleUnknownEvent [sampleFlightA, sampleFlightB] =
        [sampleFlightA, sampleFlightB] ∧
    LogEntry.receivedStateChange sampleUnknownEvent ∈
      onStateChangeLogs sampleUnknownEvent [sampleFlightA, sampleFlightB] :=
  stateChange_unknown_id_dropped sampleUnknownEvent
    [sampleFlightA, sampleFlightB] (by decide)

/-- Helper: whenever the probe rejects a payload, one of the two
`console.error` discard messages is emitted. -/
theorem extract_none_errorLog (p : FlightDataPayload)
    (h : extractFlightData p = none) : (onFlightDataErrorLog p).isSome = true := by
  obtain ⟨nd, sa, df, ff⟩ := p
  cases nd with
  | none =>
    cases sa with
    | none =>
      cases df with
      | none =>
        cases ff with
        | none => rfl
        | some xs => simp [extractFlightData] at h
      | some xs => simp [extractFlightData] at h
    | some xs => simp [extractFlightData] at h
  | some pf =>
    cases pf with
    | arrVal xs => simp [extractFlightData] at h
    | nonArr => rfl

/-- C5: the `onFlightData` handler probes the recognizable payload shapes in
sequence — nested `flightData.data`, the payload itself as a bare array, a
direct `data` array property, a `flights` array property — and uses the first
match; when nothing is extracted, the update is discarded with a logged error
and the prior flight list is retained unchanged. -/
theorem flightData_probe_order (p : FlightDataPayload)
    (prev : List FlightStatus) :
    (∀ xs, p.nestedData = some (ProbeField.arrVal xs) →
      onFlightDataUpdate p prev = xs) ∧
    (p.nestedData = none → ∀ xs, p.selfArray = some xs →
      onFlightDataUpdate p prev = xs) ∧
    (p.nestedData = none → p.selfArray = none → ∀ xs, p.dataField = some xs →
      onFlightDataUpdate p prev = xs) ∧
    (p.nestedData = none → p.selfArray = none → p.dataField = none →
      ∀ xs, p.flightsField = some xs → onFlightDataUpdate p prev = xs) ∧
    (extractFlightData p = none →
      onFlightDataUpdate p prev = prev ∧
        (onFlightDataErrorLog p).isSome = true) := by
  obtain ⟨nd, sa, df, ff⟩ := p
  refine ⟨?_, ?_, ?_, ?_, ?_⟩
  · intro xs h
    cases h
    rfl
  · intro h xs h2
    cases h
    cases h2
    rfl
  · intro h h2 xs h3
    cases h
    cases h2
    cases h3
    rfl
  · intro h h2 h3 xs h4
    cases h
    cases h2
    cases h3
    cases h4
    rfl
  · intro h
    exact ⟨by simp [onFlightDataUpdate, h], extract_none_errorLog _ h⟩

/-- Concrete instantiation of `flightData_probe_order`: a payload carrying the
records only under a `flights` property is accepted through the last probe. -/
theorem flightData_probe_order_witness :
    onFlightDataUpdate { flightsField := some [sampleFlightA] }
        [sampleFlightB] = [sampleFlightA] :=
  (flightData_probe_order { flightsField := some [sampleFlightA] }
    [sampleFlightB]).2.2.2.1 rfl rfl rfl [sampleFlightA] rfl

/-- C4 counterexample: from the fresh service state, five consecutive
`connect_error` events schedule zero reconnection attempts (the
`connect_error` handler never calls `attemptReconnect`; only the `disconnect`
handler does), contradicting the claimed five scheduled attempts. -/
theorem connectError_schedules_nothing :
    (runWS initialWSState (List.replicate 5 WSEvent.connectErrorEv)).2 = [] ∧
    (runWS initialWSState (List.replicate 5 WSEvent.connectErrorEv)).2.length ≠
      5 := by
  decide

/-- Helper: once the reconnection counter has reached the cap, no event other
than a successful `connect` schedules any further reconnection attempt. -/
theorem runWS_maxed_schedules_nothing :
    ∀ (es : List WSEvent) (s : WSState),
      maxReconnectAttempts ≤ s.reconnectAttempts →
      WSEvent.connectEv ∉ es → (runWS s es).2 = [] := by
  intro es
  induction es with
  | nil => intro s _ _; rfl
  | cons e tail ih =>
    intro s hs h
    have htail : WSEvent.connectEv ∉ tail := fun hh =>
      h (List.mem_cons_of_mem e hh)
    cases e with
    | connectEv => exact absurd (List.mem_cons_self _ _) h
    | disconnectEv =>
      have hlt : ¬ s.reconnectAttempts < maxReconnectAttempts := by omega
      simp only [runWS, stepWS, onDisconnectEvent, attemptReconnect]
      rw [if_neg (by simpa using hlt)]
      simpa using ih _ (by simpa using hs) htail
    | connectErrorEv =>
      simp only [runWS, stepWS, onConnectErrorEvent]
      simpa using ih _ (by simpa using hs) htail
    | authenticatedEv b =>
      simp only [runWS, stepWS, onAuthenticatedEvent]
      simpa using ih _ (by simpa using hs) htail

/-- C4 amended: reconnection is driven by `disconnect` events, not
`connect_error` events. From the fresh state, six consecutive `disconnect`
events schedule exactly five reconnection attempts with strictly increasing
delays `attempt number × 1000 ms` and the sixth schedules nothing; after the
budget is exhausted, no sequence of events avoiding a successful `connect`
schedules any further attempt; and a `connect_error` event schedules nothing
from any state. -/
theorem reconnect_on_disconnect_bounded (es : List WSEvent)
    (h : WSEvent.connectEv ∉ es) :
    (runWS initialWSState (List.replicate 6 WSEvent.disconnectEv)).2 =
        [1000, 2000, 3000, 4000, 5000] ∧
    (runWS (runWS initialWSState (List.replicate 6 WSEvent.disconnectEv)).1
        es).2 = [] ∧
    ∀ s : WSState, (stepWS s WSEvent.connectErrorEv).2 = none := by
  refine ⟨by decide, ?_, fun s => rfl⟩
  exact runWS_maxed_schedules_nothing es _ (by decide) h

/-- Concrete instantiation of `reconnect_on_disconnect_bounded`: after the six
disconnects, a further disconnect and a connection error schedule nothing. -/
theorem reconnect_on_disconnect_bounded_witness :
    (runWS (runWS initialWSState (List.replicate 6 WSEvent.disconnectEv)).1
        [WSEvent.disconnectEv, WSEvent.connectErrorEv]).2 = [] :=
  (reconnect_on_disconnect_bounded
    [WSEvent.disconnectEv, WSEvent.connectErrorEv] (by decide)).2.1

/-- C10: the `connect` handler resets the reconnection counter to zero from
any state, so after any successful (re)connect the full budget of five
attempts is available again: six subsequent disconnects schedule exactly the
five linear-backoff delays. -/
theorem connect_resets_retry_budget (s : WSState) :
    (onConnectEvent s).reconnectAttempts = 0 ∧
    (runWS (onConnectEvent s) (List.replicate 6 WSEvent.disconnectEv)).2 =
      [1000, 2000, 3000, 4000, 5000] :=
  ⟨rfl, rfl⟩

/-- C8 counterexample: calling `connect("new")` while already connected is not
a no-op — the stored credential changes from `"old"` to `"new"` (the method
assigns `this.authToken = token` before checking `isConnected`), although no
new connection is opened. -/
theorem connect_overwrites_token :
    ((connectMethod
        { socketSet := true, isConnected := true, isAuthenticated := true,
          reconnectAttempts := 0, authToken := some "old" } "new").1.authToken =
      some "new") ∧
    ((connectMethod
        { socketSet := true, isConnected := true, isAuthenticated := true,
          reconnectAttempts := 0, authToken := some "old" } "new").1 ≠
      { socketSet := true, isConnected := true, isAuthenticated := true,
        reconnectAttempts := 0, authToken := some "old" }) ∧
    ((connectMethod
        { socketSet := true, isConnected := true, isAuthenticated := true,
          reconnectAttempts := 0, authToken := some "old" } "new").2 = false) := by
  decide

/-- C8 amended: `connect(token)` always stores the credential, overwriting any
previous one; it changes no other state field; and it opens the underlying
connection exactly when the socket exists and the client is not already
connected. -/
theorem connect_stores_token_opens_if_disconnected (s : WSState)
    (token : String) :
    (connectMethod s token).1 = { s with authToken := some token } ∧
    (connectMethod s token).2 = (s.socketSet && !s.isConnected) := by
  simp only [connectMethod]
  split <;> simp_all

/-- C9 counterexample: a present-but-empty `token` query parameter also
triggers the client-side redirect (the page checks JavaScript truthiness, and
`""` is falsy), so the redirect is not confined to the absent-token case. -/
theorem page_redirects_on_empty_token :
    pageRedirects (some "") = true ∧ (some "" : Option String) ≠ none := by
  decide

/-- C9 amended: the client-side page gate accepts any non-empty token
regardless of its value; the redirect fires exactly when the token is absent
or empty; and comparison against the expected value happens solely in the
edge middleware, which on `/` passes a non-empty token through iff it equals
the expected token. -/
theorem page_gate_token_handling (t e : String) (ht : t ≠ "") :
    pageRedirects (some t) = false ∧
    pageRedirects none = true ∧
    pageRedirects (some "") = true ∧
    (middlewareRedirects "/" (some t) (some e) = false ↔ t = e) ∧
    middlewareRedirects "/" none (some e) = true := by
  refine ⟨by simp [pageRedirects, ht], rfl, by decide, ?_, rfl⟩
  simp [middlewareRedirects, tokenFalsy, jsStrictEqStr, ht]

/-- Concrete instantiation of `page_gate_token_handling` at a matching
non-empty token. -/
theorem page_gate_token_handling_witness :
    pageRedirects (some "secret") = false ∧
    middlewareRedirects "/" (some "secret") (some "secret") = false := by
  have h := page_gate_token_handling "secret" "secret" (by decide)
  exact ⟨h.1, h.2.2.2.1.mpr rfl⟩

/-- Helper: the state-rank comparator is transitive. -/
theorem flightLE_trans (a b c : FlightStatus) (hab : flightLE a b)
    (hbc : flightLE b c) : flightLE a c := by
  simp only [flightLE, decide_eq_true_eq] at *
  omega

/-- Helper: the state-rank comparator is total. -/
theorem flightLE_total (a b : FlightStatus) : flightLE a b || flightLE b a := by
  simp only [flightLE, Bool.or_eq_true, decide_eq_true_eq]
  omega

/-- C6: the render-time sort orders records by the state rank `Visible = 0`,
`Incoming = 1`, `Passed = 2`; it is stable, in that the records of any fixed
state appear in the output in exactly their input order; and it is
idempotent: sorting an already-sorted list returns it unchanged. -/
theorem sortFlights_sorted_stable_idempotent (l : List FlightStatus) :
    (sortFlightsByState l).Pairwise
        (fun a b => stateOrder a.state ≤ stateOrder b.state) ∧
    (∀ s : FlightState,
      (sortFlightsByState l).filter (fun f => decide (f.state = s)) =
        l.filter (fun f => decide (f.state = s))) ∧
    sortFlightsByState (sortFlightsByState l) = sortFlightsByState l := by
  have hsorted : (sortFlightsByState l).Pairwise
      (fun a b => flightLE a b = true) :=
    List.sorted_mergeSort flightLE_trans flightLE_total l
  refine ⟨hsorted.imp ?_, ?_, ?_⟩
  · intro a b hab
    simpa [flightLE] using hab
  · intro s
    have hc : (l.filter (fun f => decide (f.state = s))).Pairwise
        (fun a b => flightLE a b = true) := by
      apply List.pairwise_of_forall_mem_list
      intro a ha b hb
      have ha2 := (List.mem_filter.mp ha).2
      have hb2 := (List.mem_filter.mp hb).2
      simp only [decide_eq_true_eq] at ha2 hb2
      simp [flightLE, ha2, hb2]
    have hsub : List.Sublist (l.filter (fun f => decide (f.state = s)))
        (sortFlightsByState l) :=
      List.sublist_mergeSort flightLE_trans flightLE_total hc
        (List.filter_sublist l)
    have hsub2 : List.Sublist (l.filter (fun f => decide (f.state = s)))
        ((sortFlightsByState l).filter (fun f => decide (f.state = s))) := by
      have := hsub.filter (fun f => decide (f.state = s))
      rwa [List.filter_filter, show
        (fun f : FlightStatus =>
            (decide (f.state = s) && decide (f.state = s))) =
          (fun f : FlightStatus => decide (f.state = s))
        from funext fun f => Bool.and_self _] at this
    have hperm : List.Perm
        ((sortFlightsByState l).filter (fun f => decide (f.state = s)))
        (l.filter (fun f => decide (f.state = s))) :=
      (List.mergeSort_perm l flightLE).filter _
    exact (hsub2.eq_of_length hperm.length_eq.symm).symm
  · exact List.mergeSort_of_sorted hsorted

/-- Helper: `formatTime` renders thirty seconds as `0:30`. -/
theorem formatTime_thirty : formatTime 30 = "0:30" := by
  have h1 : ⌊(30 : ℚ) / 60⌋ = 0 := by norm_num
  have h2 : jsMod 30 60 = 30 := by simp [jsMod, h1]
  have h3 : ⌊(30 : ℚ)⌋ = 30 := by norm_num
  rw [formatTime, h1, h2, h3]
  rfl

/-- Helper: `formatTime` renders zero seconds as `0:00`. -/
theorem formatTime_zero : formatTime 0 = "0:00" := by
  have h1 : ⌊(0 : ℚ) / 60⌋ = 0 := by norm_num
  have h2 : jsMod 0 60 = 0 := by simp [jsMod, h1]
  have h3 : ⌊(0 : ℚ)⌋ = 0 := by norm_num
  rw [formatTime, h1, h2, h3]
  rfl

/-- Helper: entry countdown of an `Incoming` record with a truthy
`estimatedEntryTime`. -/
theorem updateTime_incoming (fl : FlightStatus) (t now : Int)
    (hs : fl.state = FlightState.Incoming)
    (he : fl.estimatedEntryTime = some t) (ht : t ≠ 0) :
    (updateTime fl now).1 = max 0 (((t : ℚ) - (now : ℚ)) / 1000) := by
  simp [updateTime, hs, he, truthyInt, ht]

/-- Helper: exit countdown of a `Visible` record with a truthy
`estimatedExitTime`. -/
theorem updateTime_visible (g : FlightStatus) (u now : Int)
    (hs : g.state = FlightState.Visible)
    (he : g.estimatedExitTime = some (some u)) (hu : u ≠ 0) :
    (updateTime g now).2 = some (max 0 (((u : ℚ) - (now : ℚ)) / 1000)) := by
  simp [updateTime, hs, he, truthyExit, hu]

/-- C7: for an `Incoming` record with a (truthy) `estimatedEntryTime`, the
countdown recomputed at the k-th one-second tick equals the remaining seconds
until entry, floored at zero and hence never negative; when the entry time is
`now + 30000 ms` the display reads `0:30` immediately and `0:00` after 30
ticks, and stays at zero from then on. The symmetric computation holds for
`Visible` records with a (truthy) `estimatedExitTime`. -/
theorem flightRow_countdown (fl : FlightStatus) (t now : Int) (k : Nat)
    (hs : fl.state = FlightState.Incoming)
    (he : fl.estimatedEntryTime = some t) (ht : t ≠ 0) :
    (updateTime fl (now + 1000 * (k : Int))).1 =
        max 0 (((t : ℚ) - ((now : ℚ) + 1000 * (k : ℚ))) / 1000) ∧
    0 ≤ (updateTime fl (now + 1000 * (k : Int))).1 ∧
    (t = now + 30000 →
      formatTime ((updateTime fl now).1) = "0:30" ∧
      formatTime ((updateTime fl (now + 1000 * 30)).1) = "0:00" ∧
      ∀ j : Nat, 30 ≤ j → (updateTime fl (now + 1000 * (j : Int))).1 = 0) ∧
    (∀ (g : FlightStatus) (u : Int), g.state = FlightState.Visible →
      g.estimatedExitTime = some (some u) → u ≠ 0 →
      (updateTime g (now + 1000 * (k : Int))).2 =
          some (max 0 (((u : ℚ) - ((now : ℚ) + 1000 * (k : ℚ))) / 1000)) ∧
      ∀ q : ℚ, (updateTime g (now + 1000 * (k : Int))).2 = some q → 0 ≤ q) := by
  have h1 : (updateTime fl (now + 1000 * (k : Int))).1 =
      max 0 (((t : ℚ) - ((now : ℚ) + 1000 * (k : ℚ))) / 1000) := by
    rw [updateTime_incoming fl t _ hs he ht]
    congr 1
    push_cast
    ring
  refine ⟨h1, by rw [h1]; exact le_max_left _ _, ?_, ?_⟩
  · intro h30
    refine ⟨?_, ?_, ?_⟩
    · rw [updateTime_incoming fl t now hs he ht, show
        ((t : ℚ) - (now : ℚ)) / 1000 = 30 by
          subst h30; push_cast; ring,
        max_eq_right (by norm_num : (0 : ℚ) ≤ 30), formatTime_thirty]
    · rw [updateTime_incoming fl t _ hs he ht, show
        ((t : ℚ) - ((now + 1000 * 30 : Int) : ℚ)) / 1000 = 0 by
          subst h30; push_cast; ring,
        max_self, formatTime_zero]
    · intro j hj
      rw [updateTime_incoming fl t _ hs he ht]
      apply max_eq_left
      apply div_nonpos_of_nonpos_of_nonneg _ (by norm_num)
      have hjq : (30 : ℚ) ≤ (j : ℚ) := by exact_mod_cast hj
      subst h30
      push_cast
      linarith
  · intro g u hgs hge hu
    have h2 := updateTime_visible g u (now + 1000 * (k : Int)) hgs hge hu
    constructor
    · rw [h2]
      congr 2
      push_cast
      ring
    · intro q hq
      rw [h2] at hq
      have := Option.some_injective _ hq
      rw [← this]
      exact le_max_left _ _

/-- Concrete instantiation of `flightRow_countdown`: the sample record with
`estimatedEntryTime = 30000` at `now = 0` reads `0:30`, and `0:00` thirty
ticks later. -/
theorem flightRow_countdown_witness :
    formatTime ((updateTime sampleFlightA 0).1) = "0:30" ∧
    formatTime ((updateTime sampleFlightA (0 + 1000 * 30)).1) = "0:00" := by
  have h := flightRow_countdown sampleFlightA 30000 0 0 rfl rfl (by decide)
  exact ⟨(h.2.2.1 (by decide)).1, (h.2.2.1 (by decide)).2.1⟩
